import Mathlib

/-
Shallow embedding of the `tail` Spotify CLI client (src/src/main.rs).

The program is single-threaded and performs one credential-check-then-fetch
sequence per invocation.  Network calls go through `ureq`: a call whose
response status is at most 399 yields `Ok(Response)`, a 4xx/5xx status yields
`Err(Error::Status)` whose `into_response()` is `Some(response)`, and a
transport failure yields an error whose `into_response()` is `None`.  JSON
parsing (`Response::into_json`) is external; the environment supplies the
parse outcome of each body as an `Except String`.  Time (`SystemTime::now`)
is sampled at several distinct points; each sample is a parameter or is taken
from the environment.  Recursion in `get_playback` is modelled with fuel: a
`none` result means the fuel ran out, i.e. the recursion did not terminate
within the given bound.
-/

namespace Tail

/-- The persisted configuration record (struct `Config` in main.rs). -/
structure Config where
  client_id : String
  client_secret : String
  redirect_uri : String
  access_token : String
  refresh_token : String
  expires_at : Nat
deriving DecidableEq

/-- `impl Default for Config`: all fields blank / zero. -/
def Config.default : Config :=
  { client_id := "", client_secret := "", redirect_uri := ""
    access_token := "", refresh_token := "", expires_at := 0 }

/-- Struct `TokenResponse`: body of a successful authorization-code exchange. -/
structure TokenResponse where
  access_token : String
  expires_in : Nat
  refresh_token : String
deriving DecidableEq

/-- A refresh-response JSON body as it appears on the wire: it may carry a
`refresh_token` field.  Serde deserialization into `RefreshTokenResponse`
ignores unknown fields, so this optional field is dropped by `parseRefresh`. -/
structure RefreshWireBody where
  access_token : String
  expires_in : Nat
  refresh_token : Option String
deriving DecidableEq

/-- Struct `RefreshTokenResponse` in main.rs: note it has no
`refresh_token` field. -/
structure RefreshTokenResponse where
  access_token : String
  expires_in : Nat
deriving DecidableEq

/-- Serde deserialization of a refresh body into `RefreshTokenResponse`:
unknown fields (in particular any `refresh_token`) are ignored. -/
def parseRefresh (w : RefreshWireBody) : RefreshTokenResponse :=
  { access_token := w.access_token, expires_in := w.expires_in }

/-- Struct `ResponseError`: structured error body from the server. -/
structure ResponseError where
  error : String
  error_description : String
deriving DecidableEq

/-- Struct `SpotifyAlbumImage`. -/
structure SpotifyAlbumImage where
  url : String
  height : Nat
  width : Nat
deriving DecidableEq

/-- Struct `SpotifyArtist`. -/
structure SpotifyArtist where
  name : String
deriving DecidableEq

/-- Struct `SpotifyAlbum`. -/
structure SpotifyAlbum where
  name : String
  images : List SpotifyAlbumImage
deriving DecidableEq

/-- Struct `SpotifyItem`. -/
structure SpotifyItem where
  artists : List SpotifyArtist
  album : SpotifyAlbum
  name : String
deriving DecidableEq

/-- Struct `PlaybackState`. -/
structure PlaybackState where
  is_playing : Bool
  item : SpotifyItem
deriving DecidableEq

/- Base64 (the `base64` crate).  The code uses the `URL_SAFE` engine:
URL-safe alphabet, with `=` padding. -/

/-- The standard base64 alphabet. -/
def b64StdChars : List Char :=
  "ABCDEFGHIJKLMNOPQRSTUVWXYZabcdefghijklmnopqrstuvwxyz0123456789+/".data

/-- The URL-safe base64 alphabet used by `base64::engine::general_purpose::URL_SAFE`. -/
def b64UrlChars : List Char :=
  "ABCDEFGHIJKLMNOPQRSTUVWXYZabcdefghijklmnopqrstuvwxyz0123456789-_".data

/-- Digit lookup in a base64 alphabet. -/
def b64Digit (alpha : List Char) (i : Nat) : Char := alpha.getD i '?'

/-- Base64-encode a byte list over a given alphabet, with `=` padding. -/
def b64Encode (alpha : List Char) : List Nat → List Char
  | [] => []
  | [b0] =>
      [b64Digit alpha (b0 / 4), b64Digit alpha (b0 % 4 * 16), '=', '=']
  | [b0, b1] =>
      [b64Digit alpha (b0 / 4), b64Digit alpha (b0 % 4 * 16 + b1 / 16),
       b64Digit alpha (b1 % 16 * 4), '=']
  | b0 :: b1 :: b2 :: bs =>
      b64Digit alpha (b0 / 4) :: b64Digit alpha (b0 % 4 * 16 + b1 / 16) ::
      b64Digit alpha (b1 % 16 * 4 + b2 / 64) :: b64Digit alpha (b2 % 64) ::
      b64Encode alpha bs

/-- UTF-8 encoding of a single character (Rust `String` stores UTF-8 bytes). -/
def utf8Bytes (c : Char) : List Nat :=
  let v := c.toNat
  if v < 128 then [v]
  else if v < 2048 then [192 + v / 64, 128 + v % 64]
  else if v < 65536 then [224 + v / 4096, 128 + v / 64 % 64, 128 + v % 64]
  else [240 + v / 262144, 128 + v / 4096 % 64, 128 + v / 64 % 64, 128 + v % 64]

/-- The UTF-8 bytes of a string. -/
def strBytes (s : String) : List Nat := s.data.flatMap utf8Bytes

/-- `URL_SAFE.encode`: padded URL-safe base64 of the UTF-8 bytes. -/
def base64UrlSafe (s : String) : String := String.mk (b64Encode b64UrlChars (strBytes s))

/-- Padded standard base64 of the UTF-8 bytes (for comparison with the spec). -/
def base64Standard (s : String) : String := String.mk (b64Encode b64StdChars (strBytes s))

/-- The `Authorization` header built by both `get_tokens` and
`refresh_tokens`: `format!("Basic {}", URL_SAFE.encode(format!("{}:{}", client_id, client_secret)))`. -/
def basicAuthHeader (client_id client_secret : String) : String :=
  "Basic " ++ base64UrlSafe (client_id ++ ":" ++ client_secret)

/- Requests and the ureq network model. -/

/-- A form-encoded POST request as built by the token endpoints. -/
structure FormRequest where
  url : String
  authHeader : String
  form : List (String × String)
deriving DecidableEq

/-- A GET request as built by the resource endpoint. -/
structure GetRequest where
  url : String
  authHeader : String
deriving DecidableEq

/-- Outcome of one ureq call.  `response status okBody errBody` is a response
with the given status; `okBody` is the outcome of parsing its body as the
expected success shape, `errBody` the outcome of parsing it as
`ResponseError`.  ureq classifies status at most 399 as `Ok(Response)` and
400 and above as `Err(Error::Status)` with `into_response() == Some`;
`transport` is an error with `into_response() == None`. -/
inductive HttpCall (α : Type) where
  | response (status : Nat) (okBody : Except String α) (errBody : Except String ResponseError)
  | transport

def tokenUrl : String := "https://accounts.spotify.com/api/token"

def playerUrl : String := "https://api.spotify.com/v1/me/player"

/-- The request built by `get_tokens`. -/
def tokens_request (auth_code : String) (config : Config) : FormRequest :=
  { url := tokenUrl
    authHeader := basicAuthHeader config.client_id config.client_secret
    form := [("grant_type", "authorization_code"), ("code", auth_code),
             ("redirect_uri", config.redirect_uri)] }

/-- The request built by `refresh_tokens`. -/
def refresh_request (config : Config) : FormRequest :=
  { url := tokenUrl
    authHeader := basicAuthHeader config.client_id config.client_secret
    form := [("grant_type", "refresh_token"), ("refresh_token", config.refresh_token)] }

/-- The request built by `get_playback`. -/
def playback_request (config : Config) : GetRequest :=
  { url := playerUrl, authHeader := "Bearer " ++ config.access_token }

/-- Error message built in `get_tokens` from a structured error body. -/
def authFailureMsg (e : ResponseError) : String :=
  "Spotify returned the following while authenticating your account: " ++
  e.error_description ++ " (" ++ e.error ++ "), please try again."

/-- Error message built in `refresh_tokens` from a structured error body. -/
def refreshFailureMsg (e : ResponseError) : String :=
  "Spotify returned the following while refreshing access to your account: " ++
  e.error_description ++ " (" ++ e.error ++ "), please try again."

/-- Error message built in `get_playback` from a structured error body. -/
def playbackFailureMsg (e : ResponseError) : String :=
  "Spotify returned the following while requesting the playback state on behalf of your account: " ++
  e.error_description ++ " (" ++ e.error ++ "), please try again."

/-- The generic error string used for transport failures and for the
failed precondition in `refresh_tokens`. -/
def unknownErrorMsg : String := "Unknown Error"

/-- `get_tokens`: POST the authorization-code exchange and interpret the
outcome.  The config is not mutated by this function. -/
def get_tokens (auth_code : String) (net : FormRequest → HttpCall TokenResponse)
    (config : Config) : Except String TokenResponse :=
  match net (tokens_request auth_code config) with
  | .response status okBody errBody =>
      if status ≤ 399 then okBody
      else
        match errBody with
        | .ok e => .error (authFailureMsg e)
        | .error msg => .error msg
  | .transport => .error unknownErrorMsg

/-- `refresh_tokens`: guarded by the authorized-at-least-once check; on a
parsed success body it overwrites `access_token` and `expires_at`
(`refresh_token` is not part of `RefreshTokenResponse` and is left alone).
`now` is the second count sampled by `SystemTime::now` after the call.
Returns the (possibly updated) config and the `Result`. -/
def refresh_tokens (now : Nat) (net : FormRequest → HttpCall RefreshWireBody)
    (config : Config) : Config × Except String Unit :=
  if config.access_token ≠ "" ∧ config.refresh_token ≠ "" ∧ config.expires_at ≠ 0 then
    match net (refresh_request config) with
    | .response status okBody errBody =>
        if status ≤ 399 then
          match okBody with
          | .ok wire =>
              let refresh_data := parseRefresh wire
              ({ config with access_token := refresh_data.access_token,
                             expires_at := now + refresh_data.expires_in }, .ok ())
          | .error msg => (config, .error msg)
        else
          match errBody with
          | .ok e => (config, .error (refreshFailureMsg e))
          | .error msg => (config, .error msg)
    | .transport => (config, .error unknownErrorMsg)
  else (config, .error unknownErrorMsg)

/-- Trace events recorded by the `get_playback` embedding: at recursion
depth `i`, a refresh attempt or a resource (bearer GET) request, together
with the config in force at that moment. -/
inductive Ev where
  | refreshEv (i : Nat) (config : Config)
  | resourceEv (i : Nat) (config : Config)
deriving DecidableEq

/-- The environment of one invocation: the time observed at each
`get_playback` entry, the time observed inside each refresh, and the network
outcome of each refresh and resource call (indexed by recursion depth). -/
structure Env where
  now : Nat → Nat
  refreshNow : Nat → Nat
  refreshNet : Nat → FormRequest → HttpCall RefreshWireBody
  resource : Nat → GetRequest → HttpCall PlaybackState

/-- Result type of `get_playback`: `Ok(Some state))`, `Ok(None)` or `Err`. -/
abbrev GPRes := Except String (Option PlaybackState)

/-- The valid-token branch of `get_playback`: issue the bearer GET and
interpret status/body exactly as the source does. -/
def fetch_playback (env : Env) (i : Nat) (config : Config) : GPRes :=
  match env.resource i (playback_request config) with
  | .response status okBody errBody =>
      if status ≤ 399 then
        if status = 200 then
          match okBody with
          | .ok p => .ok (some p)
          | .error msg => .error msg
        else .ok none
      else
        match errBody with
        | .ok e => .error (playbackFailureMsg e)
        | .error msg => .error msg
  | .transport => .error unknownErrorMsg

/-- `get_playback`, fuelled.  The source checks `now < expires_at`; if valid
it fetches, otherwise it refreshes (propagating a refresh error with `?`)
and then calls itself recursively.  A `none` first component means the fuel
was exhausted, i.e. the recursion did not terminate within the bound.  The
second component is the trace of refresh / resource events. -/
def get_playback (env : Env) : Nat → Nat → Config → Option (Config × GPRes) × List Ev
  | 0, _, _ => (none, [])
  | fuel + 1, i, config =>
      if env.now i < config.expires_at then
        (some (config, fetch_playback env i config), [Ev.resourceEv i config])
      else
        match refresh_tokens (env.refreshNow i) (env.refreshNet i) config with
        | (config2, .ok ()) =>
            let r := get_playback env fuel (i + 1) config2
            (r.1, Ev.refreshEv i config :: r.2)
        | (config2, .error msg) =>
            (some (config2, .error msg), [Ev.refreshEv i config])

deriving instance DecidableEq for Except

/-- Rust `str::trim`: drop whitespace from both ends of the line read from
standard input. -/
def rustTrim (s : String) : String :=
  String.mk (((s.data.dropWhile Char.isWhitespace).reverse.dropWhile Char.isWhitespace).reverse)

/-- Outcome of the DEFAULT / PLAYBACK branch of `main`: the final config,
the config handed to `config_save` (main saves unconditionally after the
fetch), and the playback result. -/
structure RunOutcome where
  final : Option Config
  saved : Option Config
  playback : Option GPRes
deriving DecidableEq

/-- The DEFAULT / PLAYBACK branch of `main`: `get_playback(&mut cfg)` then
`config_save(None, cfg)` unconditionally. -/
def run_playback (env : Env) (fuel : Nat) (config : Config) : RunOutcome :=
  match (get_playback env fuel 0 config).1 with
  | none => { final := none, saved := none, playback := none }
  | some (config2, r) => { final := some config2, saved := some config2, playback := some r }

/-- The SETUP / first-run branch of `main`: trim the input line, panic on an
empty code (modelled as `none`), call `get_tokens`, on success set the three
token fields with `expires_at = now + expires_in` and save; a token error
panics (`none`).  Returns `(final config, config handed to save)`. -/
def run_setup (now : Nat) (net : FormRequest → HttpCall TokenResponse)
    (input_line : String) (config : Config) : Option (Config × Config) :=
  let auth_code := rustTrim input_line
  if auth_code = "" then none
  else
    match get_tokens auth_code net config with
    | .ok token_data =>
        let config2 := { config with
          access_token := token_data.access_token,
          refresh_token := token_data.refresh_token,
          expires_at := now + token_data.expires_in }
        some (config2, config2)
    | .error _ => none

/-- `config_load`: any custom path yields `Err("no impl")` without touching
the store; otherwise the confy load result and then the configuration-file
path lookup are consulted (their outcomes supplied by the environment). -/
def config_load (custom_path : Option String) (loadRes : Except String Config)
    (pathRes : Except String String) : Except String Config :=
  match custom_path with
  | some _ => .error "no impl"
  | none =>
      match loadRes with
      | .error e => .error e
      | .ok cfg =>
          match pathRes with
          | .error e => .error e
          | .ok _ => .ok cfg

/-- `config_save`: any custom path yields `Err("no impl")` without touching
the store; otherwise the confy store result is returned. -/
def config_save (custom_path : Option String) (storeRes : Except String Unit) :
    Except String Unit :=
  match custom_path with
  | some _ => .error "no impl"
  | none =>
      match storeRes with
      | .error e => .error e
      | .ok _ => .ok ()

/- Concrete fixtures used by counterexamples and witnesses. -/

/-- An authorized credential fixture. -/
def authedConfig : Config :=
  { client_id := "id", client_secret := "sec", redirect_uri := "uri"
    access_token := "AT", refresh_token := "RT", expires_at := 100 }

/-- An authorized credential holding refresh token `RT1`. -/
def rotateConfig : Config :=
  { client_id := "id", client_secret := "sec", redirect_uri := "uri"
    access_token := "AT1", refresh_token := "RT1", expires_at := 100 }

/-- A refresh network outcome whose wire body carries a rotated
`refresh_token` of `RT2`. -/
def rotateNet : FormRequest → HttpCall RefreshWireBody := fun _ =>
  .response 200 (.ok { access_token := "AT2", expires_in := 3600, refresh_token := some "RT2" })
    (.error "parse failure")

/-- C10: for every non-empty custom path, `config_load` and `config_save`
return the error `"no impl"`, whatever the persistent store would have
answered (the store outcomes are universally quantified, so neither is
consulted). -/
theorem C10_custom_path_no_impl (p : String) (hp : p ≠ "")
    (loadRes : Except String Config) (pathRes : Except String String)
    (storeRes : Except String Unit) :
    config_load (some p) loadRes pathRes = .error "no impl" ∧
    config_save (some p) storeRes = .error "no impl" :=
  ⟨rfl, rfl⟩

/-- Witness for C10 at the concrete path `"x"`. -/
theorem C10_custom_path_no_impl_witness :
    ("x" : String) ≠ "" ∧
    (config_load (some "x") (.ok Config.default) (.ok "") = .error "no impl" ∧
     config_save (some "x") (.ok ()) = .error "no impl") :=
  ⟨by decide, C10_custom_path_no_impl "x" (by decide) (.ok Config.default) (.ok "") (.ok ())⟩

/-- C6 counterexample: on a never-authorized credential, `refresh_tokens`
returns the generic `"Unknown Error"` — the very same message produced by a
transport failure on an authorized credential — so there is no
distinguishable "not authorized" condition, contrary to the claim. -/
theorem C6_counterexample :
    (refresh_tokens 0 (fun _ => .transport) Config.default).2
      = .error "Unknown Error" ∧
    (refresh_tokens 0 (fun _ => .transport) authedConfig).2
      = .error "Unknown Error" := by
  constructor <;> rfl

/-- C6 (amended): for every never-authorized credential (empty
`access_token`, or empty `refresh_token`, or `expires_at == 0`),
`refresh_tokens` fails immediately with the generic `"Unknown Error"` and
leaves the credential unchanged; the result is the same for every network
environment, i.e. no network call is performed. -/
theorem C6_never_authorized_no_network (now : Nat)
    (net : FormRequest → HttpCall RefreshWireBody) (config : Config)
    (h : config.access_token = "" ∨ config.refresh_token = "" ∨ config.expires_at = 0) :
    refresh_tokens now net config = (config, .error unknownErrorMsg) := by
  unfold refresh_tokens
  rw [if_neg]
  tauto

/-- Witness for C6 at the empty default credential. -/
theorem C6_never_authorized_no_network_witness :
    refresh_tokens 7 (fun _ => .transport) Config.default
      = (Config.default, .error unknownErrorMsg) :=
  C6_never_authorized_no_network 7 (fun _ => .transport) Config.default (Or.inl rfl)

/-- Case split on every branch of `refresh_tokens`: either it succeeded, or
the config came back untouched. -/
theorem refresh_tokens_frame (now : Nat) (net : FormRequest → HttpCall RefreshWireBody)
    (config : Config) :
    (refresh_tokens now net config).2 = .ok () ∨ (refresh_tokens now net config).1 = config := by
  unfold refresh_tokens
  repeat' split
  all_goals first
  | exact Or.inl rfl
  | exact Or.inr rfl

/-- C8: a failed refresh (structured error body, unparseable body, transport
failure, or failed precondition) leaves the whole credential unchanged — in
particular the stored `refresh_token` is never cleared. -/
theorem C8_failed_refresh_unchanged (now : Nat)
    (net : FormRequest → HttpCall RefreshWireBody) (config : Config) (msg : String)
    (h : (refresh_tokens now net config).2 = .error msg) :
    (refresh_tokens now net config).1 = config := by
  rcases refresh_tokens_frame now net config with hok | hframe
  · rw [h] at hok
    exact absurd hok (by simp)
  · exact hframe

/-- Witness for C8: a transport failure on an authorized credential. -/
theorem C8_failed_refresh_unchanged_witness :
    (refresh_tokens 0 (fun _ => .transport) authedConfig).1 = authedConfig :=
  C8_failed_refresh_unchanged 0 (fun _ => .transport) authedConfig "Unknown Error" rfl

/-- C2 counterexample: a successful refresh whose wire body carries the new
refresh token `RT2` leaves the stored `refresh_token` at `RT1` — the
deserialized `RefreshTokenResponse` has no `refresh_token` field, so the
rotated token is silently dropped instead of replacing the stored one. -/
theorem C2_counterexample :
    (refresh_tokens 50 rotateNet rotateConfig).2 = .ok () ∧
    (refresh_tokens 50 rotateNet rotateConfig).1.refresh_token = "RT1" ∧
    ("RT1" : String) ≠ "RT2" := by
  refine ⟨rfl, rfl, by decide⟩

/-- C2 (amended): `refresh_tokens` never modifies the stored
`refresh_token`, whether the refresh succeeds or fails and whether or not
the response carries a new `refresh_token` on the wire. -/
theorem C2_refresh_token_never_replaced (now : Nat)
    (net : FormRequest → HttpCall RefreshWireBody) (config : Config) :
    (refresh_tokens now net config).1.refresh_token = config.refresh_token := by
  unfold refresh_tokens
  repeat' split
  all_goals rfl

/-- The exchange network outcome of the C7 scenario: a 200 response parsing
to `{access_token: "AT1", expires_in: 3600, refresh_token: "RT1"}`. -/
def c7Net : FormRequest → HttpCall TokenResponse := fun _ =>
  .response 200 (.ok { access_token := "AT1", expires_in := 3600, refresh_token := "RT1" })
    (.error "parse failure")

/-- C7: starting from the empty credential, the setup flow with input code
`ABC123` and a successful exchange returning `AT1` / `RT1` / 3600 produces a
credential with those tokens and `expires_at = now + 3600`, and hands
exactly that credential to the store save. -/
theorem C7_setup_scenario (now : Nat) :
    run_setup now c7Net "ABC123" Config.default =
      some ({ client_id := "", client_secret := "", redirect_uri := ""
              access_token := "AT1", refresh_token := "RT1", expires_at := now + 3600 },
            { client_id := "", client_secret := "", redirect_uri := ""
              access_token := "AT1", refresh_token := "RT1", expires_at := now + 3600 }) := by
  rfl

/-- Swap of the two characters that differ between the standard and the
URL-safe base64 alphabets. -/
def b64SwapChar (c : Char) : Char :=
  if c = '+' then '-' else if c = '/' then '_' else c

/-- On every valid digit index the swap carries the standard digit to the
URL-safe digit. -/
theorem b64Digit_swap : ∀ i : Nat, i < 64 →
    b64SwapChar (b64Digit b64StdChars i) = b64Digit b64UrlChars i := by decide

/-- Padding is unaffected by the alphabet swap. -/
theorem b64SwapChar_pad : b64SwapChar '=' = '=' := by decide

/-- Mapping the alphabet swap over a standard base64 encoding of bytes
yields the URL-safe encoding. -/
theorem b64Encode_swap : ∀ bs : List Nat, (∀ b ∈ bs, b < 256) →
    (b64Encode b64StdChars bs).map b64SwapChar = b64Encode b64UrlChars bs
  | [], _ => rfl
  | [b0], h => by
      have h0 : b0 < 256 := h b0 (by simp)
      have e1 := b64Digit_swap (b0 / 4) (by omega)
      have e2 := b64Digit_swap (b0 % 4 * 16) (by omega)
      simp [b64Encode, e1, e2, b64SwapChar_pad]
  | [b0, b1], h => by
      have h0 : b0 < 256 := h b0 (by simp)
      have h1 : b1 < 256 := h b1 (by simp)
      have e1 := b64Digit_swap (b0 / 4) (by omega)
      have e2 := b64Digit_swap (b0 % 4 * 16 + b1 / 16) (by omega)
      have e3 := b64Digit_swap (b1 % 16 * 4) (by omega)
      simp [b64Encode, e1, e2, e3, b64SwapChar_pad]
  | b0 :: b1 :: b2 :: bs, h => by
      have h0 : b0 < 256 := h b0 (by simp)
      have h1 : b1 < 256 := h b1 (by simp)
      have h2 : b2 < 256 := h b2 (by simp)
      have ih := b64Encode_swap bs (fun b hb => h b (by simp [hb]))
      have e1 := b64Digit_swap (b0 / 4) (by omega)
      have e2 := b64Digit_swap (b0 % 4 * 16 + b1 / 16) (by omega)
      have e3 := b64Digit_swap (b1 % 16 * 4 + b2 / 64) (by omega)
      have e4 := b64Digit_swap (b2 % 64) (by omega)
      simp [b64Encode, e1, e2, e3, e4, ih]

/-- Every scalar value of a `Char` is below the Unicode bound. -/
theorem charToNatLt (c : Char) : c.toNat < 1114112 := by
  show c.val.toNat < 1114112
  have h : c.val.toNat < 55296 ∨ (57344 ≤ c.val.toNat ∧ c.val.toNat < 1114112) := c.valid
  omega

/-- UTF-8 code units are bytes. -/
theorem utf8Bytes_lt (c : Char) : ∀ b ∈ utf8Bytes c, b < 256 := by
  intro b hb
  have hc : c.toNat < 1114112 := charToNatLt c
  unfold utf8Bytes at hb
  by_cases h1 : c.toNat < 128
  · simp [h1] at hb
    omega
  · by_cases h2 : c.toNat < 2048
    · simp [h1, h2] at hb
      rcases hb with hb | hb <;> omega
    · by_cases h3 : c.toNat < 65536
      · simp [h1, h2, h3] at hb
        rcases hb with hb | hb | hb <;> omega
      · simp [h1, h2, h3] at hb
        rcases hb with hb | hb | hb | hb <;> omega

/-- The UTF-8 bytes of any string are bytes. -/
theorem strBytes_lt (s : String) : ∀ b ∈ strBytes s, b < 256 := by
  intro b hb
  simp only [strBytes, List.mem_flatMap] at hb
  obtain ⟨c, _, hc⟩ := hb
  exact utf8Bytes_lt c b hc

/-- C5 counterexample: with `client_id = "a"` and `client_secret = "~"` the
header built by the code is `Basic YTp_` (URL-safe alphabet), while the
standard base64 of `a:~` is `YTp+` — the claim that the header uses the
standard encoding fails. -/
theorem C5_counterexample :
    (tokens_request "code"
        { Config.default with client_id := "a", client_secret := "~" }).authHeader
      ≠ "Basic " ++ base64Standard ("a" ++ ":" ++ "~") := by decide

/-- C5 (amended): both the token exchange and the token refresh send the
same Authorization header, equal to `Basic ` followed by the padded
URL-safe base64 of `client_id:client_secret` — that is, the standard base64
with `+` and `/` replaced by `-` and `_`. -/
theorem C5_auth_header_url_safe (auth_code : String) (config : Config) :
    (tokens_request auth_code config).authHeader = (refresh_request config).authHeader ∧
    (tokens_request auth_code config).authHeader =
      "Basic " ++ String.mk (((base64Standard
        (config.client_id ++ ":" ++ config.client_secret)).data).map b64SwapChar) := by
  refine ⟨rfl, ?_⟩
  have h := b64Encode_swap (strBytes (config.client_id ++ ":" ++ config.client_secret))
    (strBytes_lt (config.client_id ++ ":" ++ config.client_secret))
  show "Basic " ++ String.mk
      (b64Encode b64UrlChars (strBytes (config.client_id ++ ":" ++ config.client_secret))) = _
  rw [← h]
  rfl

/-- An expired authorized credential: `expires_at = 5` while the clock
reads 10. -/
def divergeConfig : Config :=
  { client_id := "id", client_secret := "sec", redirect_uri := "uri"
    access_token := "AT", refresh_token := "RT", expires_at := 5 }

/-- An environment whose clock is stuck at 10 and whose refresh endpoint
always succeeds with `expires_in = 0`, so every refreshed credential is
already expired again. -/
def divergeEnv : Env :=
  { now := fun _ => 10
    refreshNow := fun _ => 10
    refreshNet := fun _ _ =>
      .response 200 (.ok { access_token := "AT2", expires_in := 0, refresh_token := none })
        (.error "parse failure")
    resource := fun _ _ => .transport }

/-- In `divergeEnv`, every recursion level starts from an expired authorized
credential, so `get_playback` consumes all its fuel doing one refresh per
level and never returns. -/
theorem diverge_aux : ∀ (fuel i : Nat) (config : Config),
    config.access_token ≠ "" → config.refresh_token ≠ "" →
    config.expires_at ≠ 0 → config.expires_at ≤ 10 →
    (get_playback divergeEnv fuel i config).1 = none ∧
    (get_playback divergeEnv fuel i config).2.length = fuel
  | 0, i, config, _, _, _, _ => by
      simp [get_playback]
  | fuel + 1, i, config, h1, h2, h3, h4 => by
      have hlt : ¬ (divergeEnv.now i < config.expires_at) := by
        show ¬ (10 < config.expires_at)
        omega
      have hrt : refresh_tokens (divergeEnv.refreshNow i) (divergeEnv.refreshNet i) config =
          ({ config with access_token := "AT2", expires_at := 10 }, .ok ()) := by
        unfold refresh_tokens
        rw [if_pos ⟨h1, h2, h3⟩]
        rfl
      have ih := diverge_aux fuel (i + 1)
        { config with access_token := "AT2", expires_at := 10 }
        (by simp) h2 (by simp) (by simp)
      simp [get_playback, hlt, hrt, ih.1, ih.2]

/-- C1: the claim fails on the code.  With an expired authorized credential
and a refresh endpoint that keeps answering success with `expires_in = 0`,
`get_playback` never terminates: for every fuel bound it runs out of fuel,
having performed one refresh attempt per recursion level (the trace length
equals the fuel), so refresh attempts are unbounded rather than at most
one. -/
theorem C1_unbounded_refresh_loop (fuel : Nat) :
    (get_playback divergeEnv fuel 0 divergeConfig).1 = none ∧
    (get_playback divergeEnv fuel 0 divergeConfig).2.length = fuel :=
  diverge_aux fuel 0 divergeConfig (by decide) (by decide) (by decide) (by decide)

/-- An environment with a valid-token clock (always 0) whose resource
endpoint answers 204 with an unparseable body. -/
def validEnv : Env :=
  { now := fun _ => 0
    refreshNow := fun _ => 0
    refreshNet := fun _ _ => .transport
    resource := fun _ _ => .response 204 (.error "parse failure") (.error "parse failure") }

/-- C4 counterexample: with a still-valid access token the fetch leaves the
credential unchanged, yet `main` still hands the credential to
`config_save` — a store save is triggered, contrary to the claim. -/
theorem C4_counterexample :
    (run_playback validEnv 1 authedConfig).saved = some authedConfig ∧
    (run_playback validEnv 1 authedConfig).saved ≠ none := by
  exact ⟨rfl, by decide⟩

/-- C4 (amended): for every credential whose access token is still valid at
call time, the playback fetch leaves all six credential fields unchanged,
but `main` unconditionally triggers a store save afterwards, saving exactly
the unchanged credential. -/
theorem C4_valid_token_frame (env : Env) (fuel : Nat) (config : Config)
    (h : env.now 0 < config.expires_at) :
    (run_playback env (fuel + 1) config).final = some config ∧
    (run_playback env (fuel + 1) config).saved = some config := by
  unfold run_playback
  simp [get_playback, h]

/-- Witness for C4 at a concrete valid credential. -/
theorem C4_valid_token_frame_witness :
    (run_playback validEnv 1 authedConfig).final = some authedConfig ∧
    (run_playback validEnv 1 authedConfig).saved = some authedConfig :=
  C4_valid_token_frame validEnv 0 authedConfig (by decide)

/-- A structured 401 error body. -/
def err401 : ResponseError :=
  { error := "invalid_token", error_description := "The access token expired" }

/-- An environment whose resource endpoint answers 401 with a parseable
structured error body. -/
def env401 : Env :=
  { now := fun _ => 0
    refreshNow := fun _ => 0
    refreshNet := fun _ _ => .transport
    resource := fun _ _ => .response 401 (.error "parse failure") (.ok err401) }

/-- C3 counterexample: a 401 response (a non-200 status) yields an error
carrying the parsed error body, not the "no playback" result the claim
promises for every non-200 status — ureq classifies 4xx/5xx as call
failures. -/
theorem C3_counterexample :
    (get_playback env401 1 0 authedConfig).1
        = some (authedConfig, .error (playbackFailureMsg err401)) ∧
    (get_playback env401 1 0 authedConfig).1
        ≠ some (authedConfig, .ok (none : Option PlaybackState)) := by
  exact ⟨rfl, by decide⟩

/-- C3 (amended): with a valid access token, a response whose status is at
most 399 but not 200 (e.g. 204) yields the "no playback" result, while a
status of 400 or above yields an error (the parsed error body message, or
the parse failure). -/
theorem C3_nonsuccess_status (env : Env) (config : Config) (fuel status : Nat)
    (okBody : Except String PlaybackState) (errBody : Except String ResponseError)
    (hvalid : env.now 0 < config.expires_at)
    (hres : env.resource 0 (playback_request config) = .response status okBody errBody) :
    (status ≤ 399 → status ≠ 200 →
      get_playback env (fuel + 1) 0 config =
        (some (config, .ok none), [Ev.resourceEv 0 config])) ∧
    (400 ≤ status → ∃ msg,
      get_playback env (fuel + 1) 0 config =
        (some (config, .error msg), [Ev.resourceEv 0 config])) := by
  constructor
  · intro hle hne
    simp [get_playback, hvalid, fetch_playback, hres, hle, hne]
  · intro hge
    have hnle : ¬ (status ≤ 399) := by omega
    cases errBody with
    | ok e =>
        exact ⟨playbackFailureMsg e,
          by simp [get_playback, hvalid, fetch_playback, hres, hnle]⟩
    | error m =>
        exact ⟨m, by simp [get_playback, hvalid, fetch_playback, hres, hnle]⟩

/-- Witness for C3: a 204 response with a valid token gives "no playback". -/
theorem C3_nonsuccess_status_witness :
    get_playback validEnv 1 0 authedConfig =
      (some (authedConfig, .ok none), [Ev.resourceEv 0 authedConfig]) :=
  (C3_nonsuccess_status validEnv authedConfig 0 204
      (.error "parse failure") (.error "parse failure") (by decide) rfl).1
    (by decide) (by decide)

/-- Every resource request in a `get_playback` trace was issued at a moment
where the clock read strictly below the credential's `expires_at`. -/
theorem resource_event_valid (env : Env) : ∀ (fuel i : Nat) (config : Config)
    (j : Nat) (cfgr : Config),
    Ev.resourceEv j cfgr ∈ (get_playback env fuel i config).2 →
    env.now j < cfgr.expires_at
  | 0, i, config, j, cfgr => by
      simp [get_playback]
  | fuel + 1, i, config, j, cfgr => by
      intro hmem
      by_cases h : env.now i < config.expires_at
      · simp [get_playback, h] at hmem
        obtain ⟨hj, hcfg⟩ := hmem
        subst hj
        subst hcfg
        exact h
      · rcases hr : refresh_tokens (env.refreshNow i) (env.refreshNet i) config with ⟨config2, r⟩
        cases r with
        | ok u =>
            cases u
            simp [get_playback, h, hr] at hmem
            exact resource_event_valid env fuel (i + 1) config2 j cfgr hmem
        | error msg =>
            simp [get_playback, h, hr] at hmem

/-- If some refresh recorded in a `get_playback` trace failed, the trace
holds no resource request at all. -/
theorem refresh_fail_no_resource (env : Env) : ∀ (fuel i : Nat) (config : Config)
    (j : Nat) (cfgr : Config),
    Ev.refreshEv j cfgr ∈ (get_playback env fuel i config).2 →
    (refresh_tokens (env.refreshNow j) (env.refreshNet j) cfgr).2 ≠ .ok () →
    ∀ (k : Nat) (c : Config), Ev.resourceEv k c ∉ (get_playback env fuel i config).2
  | 0, i, config, j, cfgr => by
      simp [get_playback]
  | fuel + 1, i, config, j, cfgr => by
      intro hmem hfail k c hres
      by_cases h : env.now i < config.expires_at
      · simp [get_playback, h] at hmem
      · rcases hr : refresh_tokens (env.refreshNow i) (env.refreshNet i) config with ⟨config2, r⟩
        cases r with
        | ok u =>
            cases u
            simp [get_playback, h, hr] at hmem hres
            rcases hmem with ⟨hj, hcfg⟩ | hmem
            · subst hj
              subst hcfg
              rw [hr] at hfail
              exact hfail rfl
            · exact refresh_fail_no_resource env fuel (i + 1) config2 j cfgr hmem hfail k c hres
        | error msg =>
            simp [get_playback, h, hr] at hres

/-- C9: the bearer-authenticated resource request is only ever issued at a
moment where `now < expires_at` holds for the credential in force (an
expired credential is never handed to the Resource Client), and an
invocation in which a recorded refresh failed issues no resource request at
all. -/
theorem C9_resource_only_when_valid :
    (∀ (env : Env) (fuel i : Nat) (config : Config) (j : Nat) (cfgr : Config),
        Ev.resourceEv j cfgr ∈ (get_playback env fuel i config).2 →
        env.now j < cfgr.expires_at) ∧
    (∀ (env : Env) (fuel i : Nat) (config : Config) (j : Nat) (cfgr : Config),
        Ev.refreshEv j cfgr ∈ (get_playback env fuel i config).2 →
        (refresh_tokens (env.refreshNow j) (env.refreshNet j) cfgr).2 ≠ .ok () →
        ∀ (k : Nat) (c : Config), Ev.resourceEv k c ∉ (get_playback env fuel i config).2) :=
  ⟨fun env fuel i config j cfgr => resource_event_valid env fuel i config j cfgr,
   fun env fuel i config j cfgr => refresh_fail_no_resource env fuel i config j cfgr⟩

/-- An environment whose clock reads 10 and whose refresh endpoint is
unreachable. -/
def failEnv : Env :=
  { now := fun _ => 10
    refreshNow := fun _ => 10
    refreshNet := fun _ _ => .transport
    resource := fun _ _ => .transport }

/-- Witness for C9 on concrete runs: a valid-token run issues its resource
request under a live credential, and a failed-refresh run issues none. -/
theorem C9_resource_only_when_valid_witness :
    validEnv.now 0 < authedConfig.expires_at ∧
    Ev.resourceEv 0 authedConfig ∉ (get_playback failEnv 1 0 divergeConfig).2 :=
  ⟨C9_resource_only_when_valid.1 validEnv 1 0 authedConfig 0 authedConfig (by decide),
   C9_resource_only_when_valid.2 failEnv 1 0 divergeConfig 0 divergeConfig
     (by decide) (by decide) 0 authedConfig⟩

end Tail
